import Mathlib

/-!
Verification development for the Ava email-assistant repository.

The backend route handlers, the AI service wrapper and the relevant
frontend data flows are shallowly embedded as pure Lean functions.
JavaScript values that may be absent or of the wrong runtime type are
modelled by an explicit `JsValue` type with JavaScript truthiness;
interactions with external services (the relational store, the OpenAI
client, the upstream token stream) are modelled by passing the external
outcome as an explicit argument, so that each handler becomes a total
function from its inputs and the external outcome to its observable
response and the resulting store.
-/

namespace Ava

/-! ## JavaScript value model -/

/-- A runtime JavaScript value as seen by the handlers: request-body
fields and query parameters may be absent, null, or of unexpected type.
`arrV` models the express behaviour of repeated query parameters
arriving as an array of strings. -/
inductive JsValue where
  | undef
  | nullV
  | boolV (b : Bool)
  | numV (n : Int)
  | strV (s : String)
  | arrV (elems : List String)
  deriving Repr, DecidableEq

/-- JavaScript truthiness: `undefined`, `null`, `false`, `0` and the
empty string are falsy; every array is truthy. -/
def truthy : JsValue → Bool
  | .undef => false
  | .nullV => false
  | .boolV b => b
  | .numV n => n != 0
  | .strV s => s != ""
  | .arrV _ => true

/-- The `typeof v === "string"` test. -/
def isString : JsValue → Bool
  | .strV _ => true
  | _ => false

/-- Extracts the payload of a string value; only used under `isString`. -/
def strVal : JsValue → String
  | .strV s => s
  | _ => ""

/-- The JavaScript expression `v || null`. -/
def jsOrNull (v : JsValue) : JsValue :=
  if truthy v then v else .nullV

/-- Truthiness of an environment variable read via `process.env`: the
variable is falsy when unset or set to the empty string. -/
def envTruthy : Option String → Bool
  | none => false
  | some s => s != ""

/-! ## User store and `createUser` (src/backend/src/routes/user.routes.ts) -/

/-- A row of the `users` table (src/backend/src/entities/User.entity.ts);
`name` keeps the stored JavaScript value `name || null`. -/
structure User where
  id : String
  email : String
  name : JsValue
  deriving Repr, DecidableEq

/-- The JSON body of `POST /api/users` after destructuring
`const (email, name) = req.body`. -/
structure CreateUserReqBody where
  email : JsValue
  name : JsValue
  deriving Repr, DecidableEq

/-- The observable outcome of one `createUser` call: the HTTP status,
the `message` field of an error body when one is sent, the user store
after the call, and whether the user repository was consulted. -/
structure CreateUserOutcome where
  status : Nat
  message : Option String
  store : List User
  dbCalled : Bool
  deriving Repr, DecidableEq

/-- The emails currently present in the store. -/
def emailsOf (store : List User) : List String :=
  store.map (fun u => u.email)

/-- Embedding of the `createUser` handler: validate the body, reject a
duplicate email with 409, otherwise create and save the new user.
`newId` stands for the UUID the database generates on save. -/
def createUser (newId : String) (body : CreateUserReqBody) (store : List User) :
    CreateUserOutcome :=
  if truthy body.email = false then
    ⟨400, some "Email is required", store, false⟩
  else if isString body.email = false then
    ⟨400, some "Invalid email format", store, false⟩
  else
    let email := strVal body.email
    match store.find? (fun u => u.email == email) with
    | some _ => ⟨409, some "User with this email already exists", store, true⟩
    | none => ⟨201, none, store ++ [⟨newId, email, jsOrNull body.name⟩], true⟩

/-! ## AI service (src/backend/src/services/ai.service.ts) -/

/-- The outcome of the upstream `openai.chat.completions.create` call in
the non-streaming case: a completion whose `choices[0]?.message?.content`
may be absent, an `APIError` carrying an HTTP status, or any other
thrown error. -/
inductive CompletionOutcome where
  | success (content : Option String)
  | apiError (status : Nat) (message : String)
  | failure (message : String)
  deriving Repr, DecidableEq

/-- Embedding of `getChatCompletion`: check the API key, call upstream,
and map every upstream outcome to a result string. -/
def getChatCompletion (apiKey : Option String) (outcome : CompletionOutcome) : String :=
  if envTruthy apiKey = false then
    "AI Service is not configured. Please set the OPENAI_API_KEY."
  else
    match outcome with
    | .success content => content.getD "AI did not return a valid response."
    | .apiError status msg => "AI API Error: " ++ toString status ++ " - " ++ msg
    | .failure _ => "An error occurred while communicating with the AI."

/-- A streaming upstream response is the finite sequence of chunks it
will deliver; each chunk carries `choices[0]?.delta?.content`, which may
be absent. -/
abbrev UpstreamStream := List (Option String)

/-- Embedding of `getChatCompletionStream`: `none` when the API key is
unset, the established stream on success, and `none` again when the
upstream stream-creation call throws (the error branch returns null). -/
def getChatCompletionStream (apiKey : Option String)
    (createResult : Except String UpstreamStream) : Option UpstreamStream :=
  if envTruthy apiKey = false then
    none
  else
    match createResult with
    | .ok stream => some stream
    | .error _ => none

/-! ## Streaming chat handler (src/backend/src/routes/user.routes.ts) -/

/-- One server-sent event written to the response body. -/
inductive SSEEvent where
  | chunkEvent (content : String)
  | endEvent
  | errorEvent (message : String)
  deriving Repr, DecidableEq

/-- The writes performed by the `for await` loop over the upstream
stream: each chunk's delta content, defaulted to the empty string when
absent, is written as a chunk event exactly when it is non-empty. -/
def chunkWrites : UpstreamStream → List SSEEvent
  | [] => []
  | c :: rest =>
    let content := c.getD ""
    if content = "" then chunkWrites rest
    else .chunkEvent content :: chunkWrites rest

/-- The delta content a chunk contributes to the response, `none` when
the chunk is skipped. -/
def nonEmptyDelta (c : Option String) : Option String :=
  match c with
  | some s => if s = "" then none else some s
  | none => none

/-- The observable response of the streaming chat handler: a 400 JSON
error body, a 500 head followed by SSE events when no stream could be
established, or a 200 SSE response with its event sequence. -/
inductive ChatStreamResponse where
  | badRequest (error : String)
  | sseFail (status : Nat) (events : List SSEEvent)
  | sseOk (events : List SSEEvent)
  deriving Repr, DecidableEq

/-- Embedding of `handleChatMessageStream` for the run in which the
client stays connected: validate the `message` query parameter, ask the
AI service for a stream, forward it, and write the final end marker.
The boolean records whether the AI service was called. -/
def handleChatMessageStream (message : JsValue) (stream : Option UpstreamStream) :
    ChatStreamResponse × Bool :=
  if truthy message = false ∨ isString message = false then
    (.badRequest "Invalid or missing message query parameter", false)
  else
    match stream with
    | none =>
      (.sseFail 500 [.errorEvent "Failed to establish connection with AI service."], true)
    | some chunks => (.sseOk (chunkWrites chunks ++ [.endEvent]), true)

/-! ## Event-loop model of the streaming loop with client disconnect -/

/-- An event observed by the handler while the SSE response is open,
in event-loop order: a chunk resolved from the upstream iterator, or the
`close` event of the request socket. -/
inductive StreamEvent where
  | deliver (c : Option String)
  | clientClose
  deriving Repr, DecidableEq

/-- The handler state while streaming: the SSE events written so far,
whether `stream.controller.abort()` has been invoked, and whether
`res.end()` has been called. -/
structure StreamLoopState where
  writes : List SSEEvent
  aborted : Bool
  ended : Bool
  deriving Repr, DecidableEq

/-- One event-loop step. The `close` listener aborts the upstream
stream and ends the response. Once aborted, the upstream iterator
delivers nothing further, so the remaining trace is absorbed: the loop
terminates by rejection and the catch block, seeing the response already
ended, writes nothing. -/
def stepStream (s : StreamLoopState) (e : StreamEvent) : StreamLoopState :=
  if s.aborted then s
  else
    match e with
    | .clientClose => { s with aborted := true, ended := true }
    | .deliver c =>
      let content := c.getD ""
      if content = "" then s
      else { s with writes := s.writes ++ [.chunkEvent content] }

/-- Runs the streaming section of `handleChatMessageStream` over a full
event trace: when the client never disconnected, the loop finishes
normally and the handler writes the end marker and ends the response. -/
def runStreamLoop (trace : List StreamEvent) : StreamLoopState :=
  let s := trace.foldl stepStream ⟨[], false, false⟩
  if s.aborted then s
  else { s with writes := s.writes ++ [.endEvent], ended := true }

/-- The chunks a deliver event carries. -/
def deliveredChunk : StreamEvent → Option (Option String)
  | .deliver c => some c
  | .clientClose => none

/-! ## Settings round-trip (src/frontend/src/pages/SettingsScreen.tsx) -/

/-- The settings payload exchanged with `GET`/`POST /api/settings`. -/
structure UserSettings where
  urgent_context : String
  delegate_context : String
  loop_context : String
  deriving Repr, DecidableEq

/-- The body `handleSave` posts, assembled from the three text areas. -/
def handleSaveBody (urgentContext delegateContext loopContext : String) : UserSettings :=
  ⟨urgentContext, delegateContext, loopContext⟩

/-- Modelled from the spec: the backend settings endpoints are not in
the repository snapshot (the spec gives only the REST contract and says
the three strings are persisted server-side, loaded and saved
wholesale). `POST /api/settings` stores the incoming payload wholesale. -/
def saveSettings (incoming : UserSettings) (_store : Option UserSettings) :
    Option UserSettings :=
  some incoming

/-- Modelled from the spec: `GET /api/settings` returns the persisted
settings wholesale. -/
def getSettings (store : Option UserSettings) : Option UserSettings :=
  store

/-- The JavaScript expression `s || ""` on a string. -/
def jsOrEmpty (s : String) : String :=
  if s = "" then "" else s

/-- Embedding of the frontend `loadSettings`: the fetched fields are
written into the three state variables, defaulting each falsy field to
the empty string. -/
def loadSettings (response : UserSettings) : String × String × String :=
  (jsOrEmpty response.urgent_context,
   jsOrEmpty response.delegate_context,
   jsOrEmpty response.loop_context)

/-! ## Email ingestion (src/frontend/src/pages/HomeScreen.tsx form) -/

/-- An email record as stored in the vector store. -/
structure EmailRecord where
  id : String
  sender : String
  subject : String
  body : String
  received_date : String
  deriving Repr, DecidableEq

/-- Executable embedding of JavaScript `String.prototype.trim`: strips
leading and trailing whitespace characters. -/
def jsTrim (s : String) : String :=
  String.mk (((s.toList.dropWhile Char.isWhitespace).reverse.dropWhile
    Char.isWhitespace).reverse)

/-- The observable outcome of submitting the ingestion form: a local
validation error shown to the user without any request being sent, or a
request posted with the given raw text. -/
inductive IngestionFormResult where
  | localError (message : String)
  | requestSent (raw_text : String)
  deriving Repr, DecidableEq

/-- Embedding of `EmailIngestionForm.handleSubmit` up to the network
call: empty (after trimming) text is rejected locally with an error
message and no request is sent. -/
def handleSubmit (bulkEmailsText : String) : IngestionFormResult :=
  if jsTrim bulkEmailsText = "" then .localError "Email text cannot be empty."
  else .requestSent bulkEmailsText

/-- Modelled from the spec: the `POST /api/ingest_bulk_emails` backend
handler is not in the repository snapshot. Per the spec, malformed or
empty input yields a 400 with a user-visible error message and no
records are written; otherwise the heuristic splitter (abstracted as
`splitter`, its grammar being an open question in the spec) produces the
records written to the vector store. Returns (status, detail) and the
store after the call. -/
def ingestBulkEmails (splitter : String → List EmailRecord) (raw_text : String)
    (store : List EmailRecord) : (Nat × String) × List EmailRecord :=
  if jsTrim raw_text = "" then
    ((400, "Email text cannot be empty."), store)
  else
    ((200, "Successfully ingested emails."), store ++ splitter raw_text)

/-! ## Homescreen ranking shape validation (GET /api/homescreen_emails) -/

/-- One classified email entry of the homescreen response. -/
structure EmailInfo where
  id : String
  subject : String
  sender : String
  reasoning : String
  deriving Repr, DecidableEq

/-- The shape of the reply produced by the text-generation service:
each of the three categories may be missing. -/
structure RankingReply where
  urgent : Option (List EmailInfo)
  delegate : Option (List EmailInfo)
  waiting_on : Option (List EmailInfo)
  deriving Repr, DecidableEq

/-- The response body of `GET /api/homescreen_emails`, with all three
category lists present. -/
structure HomescreenData where
  urgent : List EmailInfo
  delegate : List EmailInfo
  waiting_on : List EmailInfo
  deriving Repr, DecidableEq

/-- Modelled from the spec: the `GET /api/homescreen_emails` backend
handler is not in the repository snapshot. Per the spec, its response
shape validation defaults each category missing from the
text-generation reply to an empty list (the frontend HomeScreen in
src/unnamed/part_002 relies on exactly this). -/
def homescreenEmails (reply : RankingReply) : HomescreenData :=
  ⟨reply.urgent.getD [], reply.delegate.getD [], reply.waiting_on.getD []⟩

/-! ## Email list sorting (src/frontend/src/pages/EmailListScreen.tsx) -/

/-- One row of the `GET /api/emails` response. -/
structure EmailListItem where
  id : String
  sender : String
  subject : String
  received_date : String
  deriving Repr, DecidableEq

/-- Embedding of the sort in `fetchEmails`: the fetched emails are
sorted with the comparator
`(a, b) => new Date(b.received_date).getTime() - new Date(a.received_date).getTime()`,
so an element stays before another exactly when its timestamp is at
least as large. `getTime` abstracts date parsing to a timestamp. -/
def sortedEmails (getTime : String → Int) (emails : List EmailListItem) :
    List EmailListItem :=
  emails.mergeSort (fun a b => decide (getTime b.received_date ≤ getTime a.received_date))

/-! ## Helper lemmas -/

/-- The loop writes exactly the non-empty delta contents, in order. -/
theorem chunkWrites_eq_filterMap (chunks : UpstreamStream) :
    chunkWrites chunks = (chunks.filterMap nonEmptyDelta).map SSEEvent.chunkEvent := by
  induction chunks with
  | nil => rfl
  | cons c rest ih =>
    cases c with
    | none => simpa [chunkWrites, nonEmptyDelta] using ih
    | some s =>
      by_cases h : s = "" <;>
        simp [chunkWrites, nonEmptyDelta, h, ih, Option.getD]

/-- A chunk event is never the end marker. -/
theorem chunkWrites_count_end (chunks : UpstreamStream) :
    (chunkWrites chunks).count SSEEvent.endEvent = 0 := by
  rw [chunkWrites_eq_filterMap, List.count_eq_zero]
  intro hmem
  rcases List.mem_map.mp hmem with ⟨s, _, hs⟩
  exact SSEEvent.noConfusion hs

/-- Once the stream is aborted, no later event changes the handler
state: the upstream iterator delivers nothing after `abort()`. -/
theorem foldl_stepStream_aborted (tr : List StreamEvent) (s : StreamLoopState)
    (h : s.aborted = true) : tr.foldl stepStream s = s := by
  induction tr generalizing s with
  | nil => rfl
  | cons e rest ih =>
    rw [List.foldl_cons]
    have hstep : stepStream s e = s := by simp [stepStream, h]
    rw [hstep, ih s h]

/-- While the client stays connected, the loop accumulates exactly the
chunk writes of the delivered chunks and neither aborts nor ends. -/
theorem foldl_stepStream_no_close (pre : List StreamEvent) (s : StreamLoopState)
    (hpre : StreamEvent.clientClose ∉ pre) (h : s.aborted = false) :
    pre.foldl stepStream s =
      ⟨s.writes ++ chunkWrites (pre.filterMap deliveredChunk), false, s.ended⟩ := by
  induction pre generalizing s with
  | nil =>
    cases s
    simp_all [chunkWrites]
  | cons e rest ih =>
    have he : e ≠ StreamEvent.clientClose := by
      intro hc
      exact hpre (hc ▸ List.mem_cons_self e rest)
    have hrest : StreamEvent.clientClose ∉ rest := by
      intro hc
      exact hpre (List.mem_cons_of_mem e hc)
    cases e with
    | clientClose => exact absurd rfl he
    | deliver c =>
      by_cases hc0 : c.getD "" = ""
      · rw [List.foldl_cons]
        have hstep : stepStream s (.deliver c) = s := by
          simp [stepStream, h, hc0]
        rw [hstep, ih s hrest h]
        simp [deliveredChunk, chunkWrites, hc0]
      · rw [List.foldl_cons]
        have hstep : stepStream s (.deliver c) =
            { s with writes := s.writes ++ [.chunkEvent (c.getD "")] } := by
          simp [stepStream, h, hc0]
        rw [hstep, ih ⟨s.writes ++ [SSEEvent.chunkEvent (c.getD "")], s.aborted, s.ended⟩
          hrest h]
        simp [deliveredChunk, chunkWrites, hc0, List.append_assoc]

/-! ## Claim theorems -/

/-- C1: for every finite sequence of chunks produced by the upstream
stream, the streaming chat handler forwards each chunk's non-empty
delta content as an SSE chunk event, in order, and writes exactly one
end-of-stream marker after the last of them. -/
theorem handleChatMessageStream_forwards_all_chunks (message : JsValue)
    (chunks : UpstreamStream)
    (hmsg : truthy message = true ∧ isString message = true) :
    handleChatMessageStream message (some chunks) =
      (.sseOk ((chunks.filterMap nonEmptyDelta).map SSEEvent.chunkEvent
          ++ [SSEEvent.endEvent]), true) ∧
    ((chunks.filterMap nonEmptyDelta).map SSEEvent.chunkEvent
        ++ [SSEEvent.endEvent]).count SSEEvent.endEvent = 1 := by
  obtain ⟨h1, h2⟩ := hmsg
  constructor
  · simp only [handleChatMessageStream, h1, h2]
    simp [chunkWrites_eq_filterMap]
  · have h0 := chunkWrites_count_end chunks
    rw [chunkWrites_eq_filterMap] at h0
    simp [List.count_append, h0, List.count_singleton]

/-- Witness for C1 at a concrete message and chunk list. -/
theorem handleChatMessageStream_forwards_all_chunks_witness :
    handleChatMessageStream (.strV "hi") (some [some "He", some "", none, some "llo"]) =
      (.sseOk [.chunkEvent "He", .chunkEvent "llo", .endEvent], true) := by
  have h := handleChatMessageStream_forwards_all_chunks (.strV "hi")
    [some "He", some "", none, some "llo"] (by constructor <;> rfl)
  rw [h.1]
  rfl

/-- C4: a `POST /api/users` body whose email is missing or not a string
is answered with status 400, a non-empty JSON error message, an
unchanged store and no repository call; a `GET /api/chat` request whose
message query parameter is missing or not a string is answered with the
400 error response and the AI service is not called. -/
theorem invalid_input_returns_400 (newId : String) (body : CreateUserReqBody)
    (store : List User) (message : JsValue) (stream : Option UpstreamStream)
    (hbody : truthy body.email = false ∨ isString body.email = false)
    (hmsg : truthy message = false ∨ isString message = false) :
    ((createUser newId body store).status = 400 ∧
      (∃ m, (createUser newId body store).message = some m ∧ m ≠ "") ∧
      (createUser newId body store).store = store ∧
      (createUser newId body store).dbCalled = false) ∧
    (handleChatMessageStream message stream =
        (.badRequest "Invalid or missing message query parameter", false) ∧
      "Invalid or missing message query parameter" ≠ "") := by
  constructor
  · rcases hbody with hb | hb
    · refine ⟨?_, ⟨"Email is required", ?_, ?_⟩, ?_, ?_⟩ <;>
        simp [createUser, hb]
    · by_cases ht : truthy body.email
      · refine ⟨?_, ⟨"Invalid email format", ?_, ?_⟩, ?_, ?_⟩ <;>
          simp [createUser, ht, hb]
      · refine ⟨?_, ⟨"Email is required", ?_, ?_⟩, ?_, ?_⟩ <;>
          simp [createUser, ht]
  · exact ⟨by simp [handleChatMessageStream, hmsg], by decide⟩

/-- Witness for C4: missing email and missing message parameter. -/
theorem invalid_input_returns_400_witness :
    (createUser "id1" ⟨.undef, .undef⟩ []).status = 400 ∧
    (createUser "id1" ⟨.undef, .undef⟩ []).dbCalled = false ∧
    handleChatMessageStream .undef none =
      (.badRequest "Invalid or missing message query parameter", false) := by
  have h := invalid_input_returns_400 "id1" ⟨.undef, .undef⟩ [] .undef none
    (Or.inl rfl) (Or.inl rfl)
  exact ⟨h.1.1, h.1.2.2.2, h.2.1⟩

/-- C5: `getChatCompletion` is a total function into strings: it
returns the configuration message when the API key is unset, the error
string with the API status for an `APIError`, the generic error string
for any other failure, the completion content on success, and the
fallback string when the upstream response carries no content. -/
theorem getChatCompletion_total_spec (apiKey : Option String)
    (outcome : CompletionOutcome) :
    getChatCompletion apiKey outcome =
      if envTruthy apiKey = false then
        "AI Service is not configured. Please set the OPENAI_API_KEY."
      else
        match outcome with
        | .success (some c) => c
        | .success none => "AI did not return a valid response."
        | .apiError status msg => "AI API Error: " ++ toString status ++ " - " ++ msg
        | .failure _ => "An error occurred while communicating with the AI." := by
  by_cases hk : envTruthy apiKey = false
  · simp [getChatCompletion, hk]
  · cases outcome with
    | success content => cases content <;> simp [getChatCompletion, hk]
    | apiError status msg => simp [getChatCompletion, hk]
    | failure msg => simp [getChatCompletion, hk]

/-- C6: saving any three context strings through `POST /api/settings`
and loading them back through `GET /api/settings` returns the same
three strings. -/
theorem settings_roundtrip (u d l : String) (store : Option UserSettings) :
    (getSettings (saveSettings (handleSaveBody u d l) store)).map loadSettings =
      some (u, d, l) := by
  simp only [getSettings, saveSettings, handleSaveBody, Option.map_some]
  unfold loadSettings jsOrEmpty
  by_cases hu : u = "" <;> by_cases hd : d = "" <;> by_cases hl : l = "" <;>
    simp [hu, hd, hl]

/-- C2: whenever the client disconnects mid-stream, the handler aborts
the upstream stream and ends the response, and the events written to
the client are exactly those produced by the chunks delivered before
the disconnect: nothing further is written afterwards. -/
theorem client_disconnect_aborts_stream (pre post : List StreamEvent)
    (hpre : StreamEvent.clientClose ∉ pre) :
    (runStreamLoop (pre ++ StreamEvent.clientClose :: post)).aborted = true ∧
    (runStreamLoop (pre ++ StreamEvent.clientClose :: post)).ended = true ∧
    (runStreamLoop (pre ++ StreamEvent.clientClose :: post)).writes =
      chunkWrites (pre.filterMap deliveredChunk) := by
  have h1 := foldl_stepStream_no_close pre ⟨[], false, false⟩ hpre rfl
  have h2 : (pre ++ StreamEvent.clientClose :: post).foldl stepStream ⟨[], false, false⟩ =
      ⟨chunkWrites (pre.filterMap deliveredChunk), true, true⟩ := by
    rw [List.foldl_append, h1, List.foldl_cons]
    have hstep :
        stepStream ⟨[] ++ chunkWrites (pre.filterMap deliveredChunk), false, false⟩
          .clientClose =
        ⟨chunkWrites (pre.filterMap deliveredChunk), true, true⟩ := by
      simp [stepStream]
    rw [hstep]
    exact foldl_stepStream_aborted post _ rfl
  simp only [runStreamLoop, h2]
  exact ⟨rfl, rfl, rfl⟩

/-- Witness for C2: two chunks, a disconnect, then two more chunks that
are never written. -/
theorem client_disconnect_aborts_stream_witness :
    runStreamLoop [.deliver (some "a"), .deliver none, .clientClose,
        .deliver (some "b"), .deliver (some "c")] =
      ⟨[.chunkEvent "a"], true, true⟩ := by
  have h := client_disconnect_aborts_stream [.deliver (some "a"), .deliver none]
    [.deliver (some "b"), .deliver (some "c")] (by decide)
  obtain ⟨ha, he, hw⟩ := h
  have : runStreamLoop [.deliver (some "a"), .deliver none, .clientClose,
      .deliver (some "b"), .deliver (some "c")] =
      runStreamLoop ([.deliver (some "a"), .deliver none] ++
        .clientClose :: [.deliver (some "b"), .deliver (some "c")]) := rfl
  rw [this]
  cases hfin : runStreamLoop ([.deliver (some "a"), .deliver none] ++
      .clientClose :: [.deliver (some "b"), .deliver (some "c")])
  rw [hfin] at ha he hw
  simp only at ha he hw
  subst ha
  subst he
  rw [hw]
  rfl

/-- C3: starting from a store whose emails are all distinct,
`createUser` preserves that invariant; when a user with the requested
email exists it returns 409 and leaves the store unchanged, and
otherwise (for a valid email) it inserts exactly one new user carrying
that email. -/
theorem createUser_email_unique (newId : String) (body : CreateUserReqBody)
    (store : List User) (hnodup : (emailsOf store).Nodup) :
    (emailsOf (createUser newId body store).store).Nodup ∧
    (truthy body.email = true → isString body.email = true →
      (∃ u ∈ store, u.email = strVal body.email) →
      (createUser newId body store).status = 409 ∧
      (createUser newId body store).store = store) ∧
    (truthy body.email = true → isString body.email = true →
      (∀ u ∈ store, u.email ≠ strVal body.email) →
      (createUser newId body store).store =
        store ++ [⟨newId, strVal body.email, jsOrNull body.name⟩]) := by
  by_cases ht : truthy body.email
  · by_cases hs : isString body.email
    · cases hfind : store.find? (fun u => u.email == strVal body.email) with
      | some u =>
        have hmem : ∃ u ∈ store, u.email = strVal body.email := by
          have := List.find?_some hfind
          have hu : u ∈ store := List.mem_of_find?_eq_some hfind
          exact ⟨u, hu, by simpa using this⟩
        refine ⟨?_, ?_, ?_⟩
        · simpa [createUser, ht, hs, hfind] using hnodup
        · intro _ _ _
          constructor <;> simp [createUser, ht, hs, hfind]
        · intro _ _ hnone
          obtain ⟨u, hu, hue⟩ := hmem
          exact absurd hue (hnone u hu)
      | none =>
        have hnotmem : strVal body.email ∉ emailsOf store := by
          intro hmem
          rcases List.mem_map.mp hmem with ⟨u, hu, hue⟩
          have := List.find?_eq_none.mp hfind u hu
          simp [hue] at this
        refine ⟨?_, ?_, ?_⟩
        · have hstore : (createUser newId body store).store =
              store ++ [⟨newId, strVal body.email, jsOrNull body.name⟩] := by
            simp [createUser, ht, hs, hfind]
          rw [hstore]
          simp only [emailsOf, List.map_append, List.map_cons, List.map_nil]
          rw [List.nodup_append]
          refine ⟨hnodup, List.nodup_singleton _, ?_⟩
          intro a ha hb
          simp only [List.mem_singleton] at hb
          subst hb
          exact hnotmem ha
        · intro _ _ hmem
          obtain ⟨u, hu, hue⟩ := hmem
          exact absurd (List.mem_map_of_mem _ hu) (hue ▸ hnotmem)
        · intro _ _ _
          simp [createUser, ht, hs, hfind]
    · refine ⟨?_, ?_, ?_⟩
      · simpa [createUser, ht, hs] using hnodup
      · intro _ hs2 _
        exact absurd hs2 hs
      · intro _ hs2 _
        exact absurd hs2 hs
  · refine ⟨?_, ?_, ?_⟩
    · simpa [createUser, ht] using hnodup
    · intro ht2 _ _
      exact absurd ht2 ht
    · intro ht2 _ _
      exact absurd ht2 ht

/-- Witness for C3: one stored user; a duplicate email gets 409 and a
fresh email keeps the emails distinct. -/
theorem createUser_email_unique_witness :
    (emailsOf (createUser "u2" ⟨.strV "b@x", .undef⟩ [⟨"u1", "a@x", .nullV⟩]).store).Nodup ∧
    (createUser "u2" ⟨.strV "a@x", .undef⟩ [⟨"u1", "a@x", .nullV⟩]).status = 409 := by
  have h1 := createUser_email_unique "u2" ⟨.strV "b@x", .undef⟩
    [⟨"u1", "a@x", .nullV⟩] (by decide)
  have h2 := createUser_email_unique "u2" ⟨.strV "a@x", .undef⟩
    [⟨"u1", "a@x", .nullV⟩] (by decide)
  refine ⟨h1.1, (h2.2.1 (by decide) (by decide) ?_).1⟩
  exact ⟨⟨"u1", "a@x", .nullV⟩, by decide, by decide⟩

/-- C7: an ingestion request whose raw text is empty or whitespace-only
fails: the ingestion form shows a non-empty error message without
sending a request, and the ingestion endpoint answers such a body with
status 400, a non-empty error detail, and an unchanged store. -/
theorem empty_ingestion_rejected (splitter : String → List EmailRecord)
    (rawText bulkText : String) (store : List EmailRecord)
    (hraw : jsTrim rawText = "") (hbulk : jsTrim bulkText = "") :
    (∃ m, handleSubmit bulkText = .localError m ∧ m ≠ "") ∧
    (ingestBulkEmails splitter rawText store).1.1 = 400 ∧
    (ingestBulkEmails splitter rawText store).1.2 ≠ "" ∧
    (ingestBulkEmails splitter rawText store).2 = store := by
  refine ⟨⟨"Email text cannot be empty.", ?_, by decide⟩, ?_, ?_, ?_⟩
  · simp [handleSubmit, hbulk]
  · simp [ingestBulkEmails, hraw]
  · simp only [ingestBulkEmails, hraw, if_pos]
    decide
  · simp [ingestBulkEmails, hraw]

/-- Witness for C7 on whitespace-only input. -/
theorem empty_ingestion_rejected_witness :
    (∃ m, handleSubmit "  " = .localError m ∧ m ≠ "") ∧
    (ingestBulkEmails (fun _ => []) "  " []).1.1 = 400 ∧
    (ingestBulkEmails (fun _ => []) "  " []).1.2 ≠ "" ∧
    (ingestBulkEmails (fun _ => []) "  " []).2 = [] :=
  empty_ingestion_rejected (fun _ => []) "  " "  " [] (by decide) (by decide)

/-- C8: the homescreen response always carries all three category
lists: a category missing from the text-generation reply is defaulted
to the empty list, and a present category is passed through. -/
theorem homescreenEmails_all_categories (reply : RankingReply) :
    (reply.urgent.isNone = true → (homescreenEmails reply).urgent = []) ∧
    (reply.urgent.isSome = true → some (homescreenEmails reply).urgent = reply.urgent) ∧
    (reply.delegate.isNone = true → (homescreenEmails reply).delegate = []) ∧
    (reply.delegate.isSome = true → some (homescreenEmails reply).delegate = reply.delegate) ∧
    (reply.waiting_on.isNone = true → (homescreenEmails reply).waiting_on = []) ∧
    (reply.waiting_on.isSome = true →
      some (homescreenEmails reply).waiting_on = reply.waiting_on) := by
  obtain ⟨u, d, w⟩ := reply
  cases u <;> cases d <;> cases w <;> simp [homescreenEmails]

/-- Witness for C8: a reply missing urgent and waiting-on categories. -/
theorem homescreenEmails_all_categories_witness :
    (homescreenEmails ⟨none, some [⟨"1", "s", "f", "r"⟩], none⟩).urgent = [] ∧
    some (homescreenEmails ⟨none, some [⟨"1", "s", "f", "r"⟩], none⟩).delegate =
      some [⟨"1", "s", "f", "r"⟩] ∧
    (homescreenEmails ⟨none, some [⟨"1", "s", "f", "r"⟩], none⟩).waiting_on = [] := by
  have h := homescreenEmails_all_categories ⟨none, some [⟨"1", "s", "f", "r"⟩], none⟩
  exact ⟨h.1 rfl, h.2.2.2.1 rfl, h.2.2.2.2.1 rfl⟩

/-- C9: the email list screen renders a permutation of the fetched
emails ordered by non-increasing received-date timestamp. -/
theorem sortedEmails_perm_and_sorted (getTime : String → Int)
    (emails : List EmailListItem) :
    List.Perm (sortedEmails getTime emails) emails ∧
    (sortedEmails getTime emails).Pairwise
      (fun a b => getTime b.received_date ≤ getTime a.received_date) := by
  constructor
  · exact List.mergeSort_perm emails _
  · have h : (sortedEmails getTime emails).Pairwise
        (fun a b => decide (getTime b.received_date ≤ getTime a.received_date) = true) :=
      List.sorted_mergeSort
        (fun a b c hab hbc => by
          simp only [decide_eq_true_eq] at hab hbc ⊢
          exact le_trans hbc hab)
        (fun a b => by
          simp only [Bool.or_eq_true, decide_eq_true_eq]
          exact le_total _ _)
        emails
    exact h.imp (fun hab => by simpa using hab)

/-- C10: `getChatCompletionStream` is total and returns `none` exactly
when the API key is unset or the upstream stream-creation call throws;
the streaming handler turns `none` into a 500 response carrying an SSE
error event. -/
theorem getChatCompletionStream_null_iff (apiKey : Option String)
    (createResult : Except String UpstreamStream) (message : JsValue)
    (hmsg : truthy message = true ∧ isString message = true) :
    (getChatCompletionStream apiKey createResult = none ↔
      envTruthy apiKey = false ∨ ∃ e, createResult = .error e) ∧
    handleChatMessageStream message none =
      (.sseFail 500 [.errorEvent "Failed to establish connection with AI service."],
        true) := by
  obtain ⟨h1, h2⟩ := hmsg
  constructor
  · by_cases hk : envTruthy apiKey = false
    · simp [getChatCompletionStream, hk]
    · cases createResult with
      | ok s => simp [getChatCompletionStream, hk]
      | error e => simp [getChatCompletionStream, hk]
  · simp [handleChatMessageStream, h1, h2]

/-- Witness for C10: unset API key yields no stream, and the handler
answers with the 500 SSE error response. -/
theorem getChatCompletionStream_null_iff_witness :
    getChatCompletionStream none (.ok []) = none ∧
    handleChatMessageStream (.strV "q") none =
      (.sseFail 500 [.errorEvent "Failed to establish connection with AI service."],
        true) := by
  have h := getChatCompletionStream_null_iff none (.ok []) (.strV "q")
    ⟨by decide, by decide⟩
  exact ⟨h.1.mpr (Or.inl rfl), h.2⟩

end Ava
